import Mathlib

/-!
# Verification of the ollama-mcp-server resilience layer

Shallow embedding of the repository's core logic:

* `config/settings.py` — model allow/deny policy (`Settings.is_model_allowed`,
  `Settings.parse_model_lists`);
* `core/models.py` — domain value objects (`ModelSize.human_readable`,
  `ModelInfo.validate_model_name`, `HealthStatus`, `DownloadProgress`, …);
* `infrastructure/ollama_client.py` — the resilient daemon client
  (`health_check`, `list_models`, `chat`, `chat_stream`, `pull_model`,
  `delete_model`);
* `client.py` — the legacy dataclass client's `ModelInfo.size_human`.

Python-level conventions used throughout the embedding:

* HTTP interactions are modelled by an environment value describing what the
  single request performed by an operation would return (`ReqOutcome`):
  either a response (status code, raw text, and the JSON value the body parses
  to, if any) or a raised exception from the transport layer.
* Exceptions raised by an operation are modelled by an error value in the
  result type; an exception escaping a handler that the source does not catch
  is modelled by the `raised` constructor.
* Strings produced by `str(e)` on library exception objects are threaded in
  from the environment (they are opaque to the program under verification).
* Python `float` arithmetic is modelled by exact rationals.  All divisions
  performed by the code divide by powers of two (1024, 10), which are exact
  in binary floating point, so the model agrees with the code on every value
  whose intermediate magnitudes stay below 2^53.
-/

namespace OllamaMCP

/-! ## JSON values

`json.loads` results.  Numbers are modelled as integers (every numeric field
the code consumes — sizes, durations, counts — is an integer in the daemon's
API).  Object fields keep insertion order; lookup takes the last binding for
a repeated key, matching `json.loads` (later duplicate keys win).
-/

inductive Json where
  | null : Json
  | bool (b : Bool) : Json
  | num (n : ℤ) : Json
  | str (s : String) : Json
  | arr (xs : List Json) : Json
  | obj (fields : List (String × Json)) : Json
deriving Repr

/-- Python `d[k]` / `d.get(k)` on a parsed JSON object: last binding for `k` wins. -/
def Json.getKey? (fields : List (String × Json)) (k : String) : Option Json :=
  (fields.reverse.find? (fun p => p.1 = k)).map (·.2)

/-! ### Python string primitives

List-based models of the `str` methods the code uses (`strip`, `replace`
with a one-character pattern, `split(",")`, `int(...)` coercion). -/

/-- The whitespace characters `str.strip()` removes (ASCII subset). -/
def pySpace (c : Char) : Bool :=
  c = ' ' || c = '\t' || c = '\n' || c = '\r' || c = '\x0b' || c = '\x0c'

/-- Python `s.strip()`. -/
def pyStrip (s : String) : String :=
  ⟨((s.data.dropWhile pySpace).reverse.dropWhile pySpace).reverse⟩

/-- Python `s.replace(c, rep)` for a one-character pattern (the only shape
the code uses: `replace(":", "-")` and `replace("Z", "+00:00")`). -/
def replaceChar (c : Char) (rep : List Char) : List Char → List Char
  | [] => []
  | d :: t => (if d = c then rep else [d]) ++ replaceChar c rep t

/-- Python `s.split(",")`: splits at every comma, keeping empty pieces. -/
def splitComma : List Char → List (List Char)
  | [] => [[]]
  | c :: t =>
    match splitComma t with
    | [] => [[c]]
    | h :: r => if c = ',' then [] :: h :: r else (c :: h) :: r

/-- Numeric value of a non-empty all-digit character list. -/
def digitsVal? (l : List Char) : Option ℕ :=
  if !l.isEmpty && l.all Char.isDigit then
    some (l.foldl (fun acc c => acc * 10 + (c.toNat - 48)) 0)
  else none

/-- Python `int(s)` (sign and digits; no underscores or surrounding
whitespace, which nothing here exercises). -/
def pyToInt? (s : String) : Option ℤ :=
  match s.data with
  | '-' :: rest => (digitsVal? rest).map (fun n => -(n : ℤ))
  | '+' :: rest => (digitsVal? rest).map (fun n => (n : ℤ))
  | l => (digitsVal? l).map (fun n => (n : ℤ))

/-! ## Settings and the allow/deny policy (`config/settings.py`) -/

/-- The security-relevant part of `Settings`.  The Python fields are
`Optional[Set[str]]`; sets of strings are modelled as lists with membership
semantics (duplicates are irrelevant to every use). -/
structure Settings where
  allowed_models : Option (List String)
  blocked_models : Option (List String)
deriving Repr

/-- Python truthiness of an `Optional[Set[str]]`: `None` and the empty set
are falsy. -/
def setTruthy : Option (List String) → Bool
  | none => false
  | some l => !l.isEmpty

/-- Embedding of `Settings.is_model_allowed` (settings.py lines 182-193):

```python
if self.blocked_models and model_name in self.blocked_models:
    return False
if self.allowed_models:
    return model_name in self.allowed_models
return True
``` -/
def Settings.is_model_allowed (st : Settings) (model_name : String) : Bool :=
  if setTruthy st.blocked_models && (st.blocked_models.getD []).contains model_name then
    false
  else if setTruthy st.allowed_models then
    (st.allowed_models.getD []).contains model_name
  else
    true

/-- Embedding of `Settings.parse_model_lists` (settings.py lines 162-170): the `mode="before"`
validator receiving the raw environment string (or `None`).

```python
if v is None or v == "":
    return None
if isinstance(v, str):
    return {model.strip() for model in v.split(",") if model.strip()}
return v
``` -/
def Settings.parse_model_lists (v : Option String) : Option (List String) :=
  match v with
  | none => none
  | some s =>
    if s = "" then none
    else some ((splitComma s.data).filterMap (fun m =>
      let t := pyStrip ⟨m⟩
      if t = "" then none else some t))

/-- The policy decision as the spec sentence states it: denied when a member
of the blocked set (whenever a blocked set is configured at all); when an
allowed set is configured (present, regardless of emptiness), any name not in
it is denied; otherwise allowed. -/
def specAllowed (st : Settings) (model_name : String) : Bool :=
  if (st.blocked_models.getD []).contains model_name then
    false
  else
    match st.allowed_models with
    | some l => l.contains model_name
    | none => true

/-! ## Model-name validation (`core/models.py` lines 40-51)

```python
if not v or not isinstance(v, str):
    raise ValueError("Model name must be a non-empty string")
if not re.match(r'^[a-zA-Z0-9._:-]+$', v):
    raise ValueError("Model name contains invalid characters")
return v.strip()
```

`re.match` with a `$` anchor also succeeds when the match ends just before a
single trailing `'\n'`, so a name consisting of pattern characters followed by
one final newline is accepted. -/

/-- One character of the class `[a-zA-Z0-9._:-]` (ASCII-only in both the
Python pattern and here). -/
def nameChar (c : Char) : Bool :=
  c.isAlpha || c.isDigit || c = '.' || c = '_' || c = ':' || c = '-'

/-- Whether `re.match(r'^[a-zA-Z0-9._:-]+$', v)` succeeds: at least one class
character, matching the whole string or the whole string minus one final
newline (the `$` quirk). -/
def matchesNamePattern (v : String) : Bool :=
  let cs := v.data
  (!cs.isEmpty && cs.all nameChar) ||
    (cs.getLast? == some '\n' && !cs.dropLast.isEmpty && cs.dropLast.all nameChar)

/-- Embedding of `ModelInfo.validate_model_name`: `.error` is the `ValueError` message the
validator raises (surfaced by pydantic as a `ValidationError`), `.ok` the
stored (stripped) name. -/
def validate_model_name (v : String) : Except String String :=
  if v = "" then
    .error "Model name must be a non-empty string"
  else if !matchesNamePattern v then
    .error "Model name contains invalid characters"
  else
    .ok (pyStrip v)

/-- The success condition as the claim states it: the name, after trimming
surrounding whitespace, is non-empty and matches `[A-Za-z0-9._:-]+`. -/
def claimNameValid (v : String) : Bool :=
  !(pyStrip v).isEmpty && (pyStrip v).data.all nameChar

/-! ## Human-readable size rendering

`core/models.py` lines 18-25 (`ModelSize.human_readable`):

```python
for unit in ['B', 'KB', 'MB', 'GB', 'TB']:
    if self.bytes < 1024.0:
        return f"{self.bytes:.1f}{unit}"
    self.bytes /= 1024.0
return f"{self.bytes:.1f}PB"
```

`client.py` lines 29-37 (`ModelInfo.size_human`) runs the same loop on a local
copy `size = float(self.size)` and inserts a space: `f"{size:.1f} {unit}"`,
`f"{size:.1f} PB"`.

`self.bytes /= 1024.0` mutates the entity in place (the pydantic model is not
frozen and assignment validation is off), so `human_readable` returns both the
rendered string and the value left behind in the `bytes` field.  All float
operations here divide by powers of two, which binary floating point performs
exactly, so rationals model them faithfully for inputs below `2^53`.
-/

/-- Round-half-to-even of a rational, matching how `%.1f` rounds the exact
binary value of a float. -/
def roundHalfEven (q : ℚ) : ℤ :=
  let f : ℤ := ⌊q⌋
  if q - f < 1/2 then f
  else if 1/2 < q - f then f + 1
  else if f % 2 = 0 then f else f + 1

/-- Python `f"{x:.1f}"` for a value whose exact binary value is `q`
(negative zero is rendered without the sign, a case no claim exercises). -/
def fmt1 (q : ℚ) : String :=
  let n : ℤ := roundHalfEven (q * 10)
  if n < 0 then
    "-" ++ toString ((-n).toNat / 10) ++ "." ++ toString ((-n).toNat % 10)
  else
    toString (n.toNat / 10) ++ "." ++ toString (n.toNat % 10)

/-- The unit names the `for` loop iterates over. -/
def hrUnits : List String := ["B", "KB", "MB", "GB", "TB"]

/-- The rendering loop shared by both implementations (`sep` is `""` in
`ModelSize.human_readable` and `" "` in the legacy `ModelInfo.size_human`);
returns the rendered string together with the final value of the loop
variable (which for `human_readable` is the mutated `self.bytes` field). -/
def hrLoop (sep : String) : ℚ → List String → String × ℚ
  | q, [] => (fmt1 q ++ sep ++ "PB", q)
  | q, u :: us => if q < 1024 then (fmt1 q ++ sep ++ u, q) else hrLoop sep (q / 1024) us

/-- Embedding of `ModelSize.human_readable`: rendered string and the value the call leaves
in `self.bytes`. -/
def human_readable (bytes : ℚ) : String × ℚ :=
  hrLoop "" bytes hrUnits

/-- Legacy `ModelInfo.size_human` (client.py): works on a local copy, no
mutation. -/
def size_human (size : ℤ) : String :=
  (hrLoop " " (size : ℚ) hrUnits).1

/-- Index of the unit the loop stops at. -/
def hrIdx (q : ℚ) : ℕ :=
  if q < 1024 then 0
  else if q < 1024 ^ 2 then 1
  else if q < 1024 ^ 3 then 2
  else if q < 1024 ^ 4 then 3
  else if q < 1024 ^ 5 then 4
  else 5

/-- Unit name at a given index. -/
def unitAt (k : ℕ) : String := (hrUnits ++ ["PB"]).getD k "PB"

/-! ## The HTTP environment

Each client operation performs (at most) one HTTP request.  The environment
value `ReqOutcome` says what that request would produce: a response, or an
exception raised by the transport.  `httpx.ConnectError` and
`httpx.TimeoutException` are subclasses of `httpx.RequestError`;
`requestError` stands for any other `httpx.RequestError` (e.g. a read error),
and `unexpectedError` for an exception outside the `httpx`/`json`/pydantic
hierarchies (reaching only generic `except Exception` handlers).  Strings
carried by the constructors model `str(e)`.
-/

inductive ReqFailure where
  | connectError (msg : String)
  | timeoutError (msg : String)
  | requestError (msg : String)
  | unexpectedError (msg : String)
deriving Repr

structure HttpResponse where
  /-- The `response.status_code` value. -/
  status : ℕ
  /-- Holds `some j` when `response.json()` succeeds with value `j`; `none` when it
  raises `json.JSONDecodeError`. -/
  jsonBody : Option Json
  /-- The raw `response.text` (also the decoded `aread()` body). -/
  text : String
deriving Repr

inductive ReqOutcome where
  | success (resp : HttpResponse)
  | netFail (f : ReqFailure)
deriving Repr

/-- Opaque stand-in for `str(e)` of a `json.JSONDecodeError` (its exact text
comes from the Python library; only its presence matters). -/
def jsonDecodeErrMsg : String := "Expecting value: line 1 column 1 (char 0)"

/-- The typed exceptions of `core/exceptions.py` that the client raises. -/
inductive OllamaError where
  | connectionError (msg : String)
  | modelNotFound (msg : String)
  | validationError (msg : String)
deriving Repr

/-- Result of a client method: a value, a raised typed error, or an exception
that escaped every handler the method installs. -/
inductive CallResult (α : Type) where
  | ok (a : α)
  | err (e : OllamaError)
  | raised (msg : String)
deriving Repr

/-! ## `health_check` (infrastructure/ollama_client.py lines 106-178) -/

structure HealthStatus where
  healthy : Bool
  host : String
  models_count : ℕ := 0
  response_time_ms : Option ℚ := none
  error : Option String := none
deriving Repr

/-- Python `len()` of a JSON value; `none` models a `TypeError`.  Object
length counts distinct keys, as `json.loads` collapses duplicates. -/
def pyLen : Json → Option ℕ
  | .arr xs => some xs.length
  | .str s => some s.length
  | .obj fs => some (fs.map Prod.fst).eraseDups.length
  | _ => none

/-- Python `len(data.get("models", []))`; `none` models the `AttributeError` from
`.get` on a non-dict, or the `TypeError` from `len` on an unsized value. -/
def modelsCount : Json → Option ℕ
  | .obj fs =>
    match Json.getKey? fs "models" with
    | none => some 0
    | some v => pyLen v
  | _ => none

/-- Stand-in for `str(e)` of the `AttributeError`/`TypeError` that
`len(data.get("models", []))` can raise on ill-shaped (but valid) JSON. -/
def lenErrMsg : String := "object is not a dict or has no len()"

/-- Embedding of `OllamaClient.health_check`.  `timeoutCfg` is `self.timeout`; `rtime` the
measured round-trip time in ms (wall-clock, supplied by the environment).
Every path returns a `HealthStatus`; nothing escapes. -/
def health_check (baseUrl : String) (timeoutCfg : ℚ) (rtime : ℚ)
    (outcome : ReqOutcome) : HealthStatus :=
  match outcome with
  | .success resp =>
    if resp.status = 200 then
      match resp.jsonBody with
      | some data =>
        match modelsCount data with
        | some k =>
          { healthy := true, host := baseUrl, models_count := k,
            response_time_ms := some rtime }
        | none =>
          -- falls through to the generic `except Exception` handler
          { healthy := false, host := baseUrl,
            error := some ("Unexpected error: " ++ lenErrMsg) }
      | none =>
        { healthy := false, host := baseUrl,
          error := some "Invalid JSON response from server",
          response_time_ms := some rtime }
    else
      { healthy := false, host := baseUrl,
        error := some ("Server returned status " ++ toString resp.status),
        response_time_ms := some rtime }
  | .netFail (.connectError m) =>
    { healthy := false, host := baseUrl,
      error := some ("Connection failed: " ++ m) }
  | .netFail (.timeoutError _) =>
    { healthy := false, host := baseUrl,
      error := some ("Request timeout after " ++ toString timeoutCfg ++ "s"),
      response_time_ms := some rtime }
  | .netFail (.requestError m) =>
    -- not a ConnectError or TimeoutException: caught by `except Exception`
    { healthy := false, host := baseUrl,
      error := some ("Unexpected error: " ++ m) }
  | .netFail (.unexpectedError m) =>
    { healthy := false, host := baseUrl,
      error := some ("Unexpected error: " ++ m) }

/-! ## `list_models` (infrastructure/ollama_client.py lines 180-234) -/

/-- The domain model built per entry (datetimes kept as their normalized
ISO strings). -/
structure ModelInfo where
  name : String
  size : ℤ
  digest : Option String
  modified : String
  families : Option (List String)
  format : Option String
  parameter_size : Option String
  quantization_level : Option String
deriving Repr

/-- Days per month, as `datetime` range-checks them. -/
def daysInMonth (y m : ℕ) : ℕ :=
  if m = 2 then (if (y % 4 = 0 && y % 100 != 0) || y % 400 = 0 then 29 else 28)
  else if m = 4 || m = 6 || m = 9 || m = 11 then 30
  else 31

/-- Numeric value of two ASCII digit characters. -/
def twoDigits (a b : Char) : ℕ := (a.toNat - 48) * 10 + (b.toNat - 48)

/-- Model of `datetime.fromisoformat` acceptance, restricted to the shapes relevant
here: `YYYY-MM-DD`, optionally followed by `T` or space and `HH:MM:SS`, an
optional fractional-second part of 3 or 6 digits (the digit counts every
supported CPython accepts; 3.11+ additionally tolerates other counts, which
nothing in the daemon's data uses), and an optional `±HH:MM` offset, with
calendar range checks. -/
def parseIso (s : String) : Bool :=
  match s.data with
  | [y1, y2, y3, y4, '-', m1, m2, '-', d1, d2] =>
    dateOk y1 y2 y3 y4 m1 m2 d1 d2
  | y1 :: y2 :: y3 :: y4 :: '-' :: m1 :: m2 :: '-' :: d1 :: d2 :: sep ::
      h1 :: h2 :: ':' :: mi1 :: mi2 :: ':' :: s1 :: s2 :: rest =>
    dateOk y1 y2 y3 y4 m1 m2 d1 d2 && (sep = 'T' || sep = ' ') &&
      timeOk h1 h2 mi1 mi2 s1 s2 && restOk rest
  | _ => false
where
  dateOk (y1 y2 y3 y4 m1 m2 d1 d2 : Char) : Bool :=
    [y1, y2, y3, y4, m1, m2, d1, d2].all Char.isDigit &&
      (let y := twoDigits y1 y2 * 100 + twoDigits y3 y4
       let m := twoDigits m1 m2
       let d := twoDigits d1 d2
       1 ≤ m && m ≤ 12 && 1 ≤ d && d ≤ daysInMonth y m)
  timeOk (h1 h2 mi1 mi2 s1 s2 : Char) : Bool :=
    [h1, h2, mi1, mi2, s1, s2].all Char.isDigit &&
      twoDigits h1 h2 ≤ 23 && twoDigits mi1 mi2 ≤ 59 && twoDigits s1 s2 ≤ 59
  offsetOk : List Char → Bool
    | [] => true
    | [sg, o1, o2, ':', o3, o4] =>
      (sg = '+' || sg = '-') && [o1, o2, o3, o4].all Char.isDigit &&
        twoDigits o1 o2 ≤ 23 && twoDigits o3 o4 ≤ 59
    | _ => false
  restOk : List Char → Bool
    | '.' :: r =>
      let digs := r.takeWhile Char.isDigit
      (digs.length = 3 || digs.length = 6) && offsetOk (r.drop digs.length)
    | r => offsetOk r

/-- pydantic v2 lax coercion to `int` (`bool` is rejected, numeric strings
are coerced). -/
def pyInt? : Json → Option ℤ
  | .num n => some n
  | .str s => pyToInt? s
  | _ => none

/-- pydantic validation of an `Optional[str]` field value; outer `none` is a
`ValidationError`. -/
def pyOptStr? : Option Json → Option (Option String)
  | none => some none
  | some .null => some none
  | some (.str s) => some (some s)
  | some _ => none

/-- pydantic validation of a `List[str]` value. -/
def pyStrList? : Json → Option (List String)
  | .arr xs => xs.mapM (fun j => match j with | .str s => some s | _ => none)
  | _ => none

/-- One model entry of the `/api/tags` listing, evaluated in the argument
order of the `ModelInfo(...)` call.  `.error none` models the exception kinds
the loop catches (`KeyError`, `ValueError`, pydantic `ValidationError`):
the entry is logged and skipped.  `.error (some msg)` models a `TypeError`
or `AttributeError`, which the `except (KeyError, ValueError,
ValidationError)` clause does NOT catch: it aborts the whole call. -/
def entryM (entry : Json) : Except (Option String) ModelInfo := do
  -- Constructor arguments evaluate first, in source order; pydantic field
  -- validation of `ModelInfo` runs only after every argument has evaluated.
  -- A fatal (`TypeError`/`AttributeError`) during argument evaluation
  -- therefore takes precedence over any pydantic-phase `ValidationError`.
  let fs ← match entry with
    | .obj fs => pure fs
    | _ => throw (some "TypeError: model entry is not subscriptable")
  -- name=model_data["name"] (access only; its type is checked by pydantic)
  let nameJ ← match Json.getKey? fs "name" with
    | some v => pure v
    | none => throw none -- KeyError
  -- size=ModelSize(bytes=model_data["size"]): the nested constructor runs
  -- during argument evaluation, so its ValidationError is raised here
  let sizeJ ← match Json.getKey? fs "size" with
    | some v => pure v
    | none => throw none -- KeyError
  let size ← match pyInt? sizeJ with
    | some n => pure n
    | none => throw none -- pydantic ValidationError from ModelSize
  -- digest=model_data.get("digest"): plain access, cannot raise here
  let digestJ := Json.getKey? fs "digest"
  -- modified=datetime.fromisoformat(model_data["modified_at"].replace("Z", "+00:00"))
  let modJ ← match Json.getKey? fs "modified_at" with
    | some v => pure v
    | none => throw none -- KeyError
  let modStr ← match modJ with
    | .str s => pure s
    | _ => throw (some "AttributeError: object has no attribute 'replace'")
  let normalized : String := ⟨replaceChar 'Z' "+00:00".data modStr.data⟩
  let _ ← match parseIso normalized with
    | true => pure ()
    | false => throw none -- ValueError from fromisoformat
  -- model_data.get("details", {}).get(...): a present non-dict `details`
  -- makes the second .get raise
  let details ← match Json.getKey? fs "details" with
    | none => pure []
    | some (.obj g) => pure g
    | some _ => throw (some "AttributeError: object has no attribute 'get'")
  let famJ := (Json.getKey? details "families").getD (.arr [])
  let formatJ := Json.getKey? details "format"
  let psJ := Json.getKey? details "parameter_size"
  let qlJ := Json.getKey? details "quantization_level"
  -- pydantic field validation of ModelInfo (argument evaluation is complete;
  -- every failure below is a ValidationError, caught and skipped)
  let nameStr ← match nameJ with
    | .str s => pure s
    | _ => throw none -- pydantic ValidationError
  let name ← match validate_model_name nameStr with
    | .ok t => pure t
    | .error _ => throw none -- ValueError -> pydantic ValidationError
  let digest ← match pyOptStr? digestJ with
    | some d => pure d
    | none => throw none -- pydantic ValidationError
  let families ← match famJ with
    | .null => pure none
    | v => match pyStrList? v with
      | some l => pure (some l)
      | none => throw none -- pydantic ValidationError
  let format ← match pyOptStr? formatJ with
    | some f => pure f
    | none => throw none
  let parameter_size ← match pyOptStr? psJ with
    | some p => pure p
    | none => throw none
  let quantization_level ← match pyOptStr? qlJ with
    | some ql => pure ql
    | none => throw none
  pure { name, size, digest, modified := normalized, families, format,
         parameter_size, quantization_level }

/-- Whether an entry raises an exception kind (`TypeError`/`AttributeError`)
that the per-entry handler does not catch. -/
def entryFatal (e : Json) : Bool :=
  match entryM e with
  | .error (some _) => true
  | _ => false

/-- The parse of one entry as the loop's success filter sees it. -/
def entryOk? (e : Json) : Option ModelInfo :=
  match entryM e with
  | .ok m => some m
  | _ => none

/-- The `for model_data in models_data` loop: skipped entries are dropped, a
`TypeError`/`AttributeError` aborts (it is re-raised by the outer
`except Exception` as an `OllamaConnectionError`). -/
def processEntries : List Json → List ModelInfo → Except OllamaError (List ModelInfo)
  | [], acc => .ok acc.reverse
  | e :: rest, acc =>
    match entryM e with
    | .ok m => processEntries rest (m :: acc)
    | .error none => processEntries rest acc
    | .error (some msg) => .error (.connectionError ("Unexpected error: " ++ msg))

/-- Embedding of `OllamaClient.list_models`. -/
def list_models (outcome : ReqOutcome) : Except OllamaError (List ModelInfo) :=
  match outcome with
  | .netFail (.connectError m) | .netFail (.timeoutError m) | .netFail (.requestError m) =>
    .error (.connectionError ("Network error: " ++ m))
  | .netFail (.unexpectedError m) =>
    .error (.connectionError ("Unexpected error: " ++ m))
  | .success resp =>
    if resp.status ≠ 200 then
      -- the OllamaConnectionError raised inside `try` is itself caught by the
      -- trailing `except Exception` clause and re-wrapped
      .error (.connectionError
        ("Unexpected error: Failed to list models: HTTP " ++ toString resp.status))
    else
      match resp.jsonBody with
      | none => .error (.validationError ("Invalid JSON response: " ++ jsonDecodeErrMsg))
      | some data =>
        match data with
        | .obj fs =>
          match (Json.getKey? fs "models").getD (.arr []) with
          | .arr entries => processEntries entries []
          | .str s =>
            -- iterating a string yields its characters, each a non-dict entry
            processEntries (s.data.map (fun c => Json.str (String.singleton c))) []
          | .obj g =>
            -- iterating a dict yields its keys, each a non-dict entry
            processEntries (g.map (fun p => Json.str p.1)) []
          | _ =>
            -- `for` over a non-iterable: TypeError, re-wrapped by `except Exception`
            .error (.connectionError
              ("Unexpected error: TypeError: object is not iterable"))
        | _ =>
          -- data.get on a non-dict: AttributeError, re-wrapped by `except Exception`
          .error (.connectionError
            ("Unexpected error: AttributeError: object has no attribute 'get'"))

/-! ## `chat` (infrastructure/ollama_client.py lines 258-332) -/

structure ChatRequest where
  model : String
  message : String
  temperature : ℚ := 7/10
  max_tokens : Option ℤ := none
  stream : Bool := false
  context_window : Option ℤ := none
deriving Repr

structure ChatResponse where
  response : String
  model : String
  total_duration_ms : ℚ
  load_duration_ms : ℚ
  prompt_eval_count : Option ℤ
  prompt_eval_duration_ms : ℚ
  eval_count : Option ℤ
  eval_duration_ms : ℚ
  context_length : Option ℕ
deriving Repr

/-- Python `data.get(k, 0) / 1_000_000` for a nanosecond field; `none` models the
`TypeError` of dividing a non-number (Python `bool` divides as 0/1). -/
def pyDivNs : Json → Option ℚ
  | .num n => some ((n : ℚ) / 1000000)
  | .bool b => some ((if b then (1 : ℚ) else 0) / 1000000)
  | _ => none

/-- Python truthiness of a JSON value. -/
def pyTruthy : Json → Bool
  | .null => false
  | .bool b => b
  | .num n => n ≠ 0
  | .str s => !s.isEmpty
  | .arr xs => !xs.isEmpty
  | .obj fs => !fs.isEmpty

/-- pydantic validation of an `Optional[int]` field value; outer `none` is a
`ValidationError`. -/
def pyOptInt? : Option Json → Option (Option ℤ)
  | none => some none
  | some .null => some none
  | some (.num n) => some (some n)
  | some (.str s) => (pyToInt? s).map some
  | some _ => none

/-- Building the `ChatResponse` from a 200-response JSON value, following
the argument evaluation order of the constructor call.  Exceptions during
argument evaluation (`KeyError`, `TypeError`) escape `chat` (its `except`
clauses cover only `httpx.RequestError`, `json.JSONDecodeError` and pydantic
`ValidationError`); pydantic validation failures become
`ValidationError("Invalid response format: ...")`. -/
def chatParse (req : ChatRequest) (data : Json) : CallResult ChatResponse :=
  match data with
  | .obj fs =>
    match Json.getKey? fs "response" with
    | none => .raised "KeyError: 'response'"
    | some respJ =>
      match pyDivNs ((Json.getKey? fs "total_duration").getD (.num 0)) with
      | none => .raised "TypeError: unsupported operand type(s) for /"
      | some total =>
        match pyDivNs ((Json.getKey? fs "load_duration").getD (.num 0)) with
        | none => .raised "TypeError: unsupported operand type(s) for /"
        | some load =>
          match pyDivNs ((Json.getKey? fs "prompt_eval_duration").getD (.num 0)) with
          | none => .raised "TypeError: unsupported operand type(s) for /"
          | some promptDur =>
            match pyDivNs ((Json.getKey? fs "eval_duration").getD (.num 0)) with
            | none => .raised "TypeError: unsupported operand type(s) for /"
            | some evalDur =>
              -- context_length=data.get("context", []) and len(data["context"]) or None
              let ctxJ := (Json.getKey? fs "context").getD (.arr [])
              match (if pyTruthy ctxJ then (pyLen ctxJ).map some else some none) with
              | none => .raised "TypeError: object has no len()"
              | some ctxLen =>
                -- pydantic validation of ChatResponse
                match respJ with
                | .str response =>
                  match pyOptInt? (Json.getKey? fs "prompt_eval_count"),
                        pyOptInt? (Json.getKey? fs "eval_count") with
                  | some pec, some ec =>
                    .ok { response, model := req.model, total_duration_ms := total,
                          load_duration_ms := load, prompt_eval_count := pec,
                          prompt_eval_duration_ms := promptDur, eval_count := ec,
                          eval_duration_ms := evalDur,
                          context_length := (ctxLen.map id).bind (fun n => if n = 0 then none else some n) }
                  | _, _ => .err (.validationError "Invalid response format: pydantic")
                | _ => .err (.validationError "Invalid response format: pydantic")
  | _ => .raised "TypeError: response body is not subscriptable"

/-- Embedding of `OllamaClient.chat`.  The second component records whether the HTTP
request was issued. -/
def chat (st : Settings) (req : ChatRequest) (outcome : ReqOutcome) :
    CallResult ChatResponse × Bool :=
  if !st.is_model_allowed req.model then
    (.err (.validationError ("Model '" ++ req.model ++ "' is not allowed")), false)
  else
    match outcome with
    | .netFail (.connectError m) | .netFail (.timeoutError m) | .netFail (.requestError m) =>
      (.err (.connectionError ("Network error: " ++ m)), true)
    | .netFail (.unexpectedError m) =>
      -- chat installs no generic handler: such an exception escapes as-is
      (.raised m, true)
    | .success resp =>
      if resp.status = 404 then
        (.err (.modelNotFound ("Model '" ++ req.model ++ "' not found")), true)
      else if resp.status ≠ 200 then
        (.err (.connectionError
          ("Chat request failed: HTTP " ++ toString resp.status ++ " - " ++ resp.text)), true)
      else
        match resp.jsonBody with
        | none => (.err (.validationError ("Invalid JSON response: " ++ jsonDecodeErrMsg)), true)
        | some data => (chatParse req data, true)

/-! ## `chat_stream` (infrastructure/ollama_client.py lines 334-383) -/

/-- One line of the streamed body, as the program can observe it. -/
inductive StreamLine where
  /-- Case where `line.strip()` is empty: skipped before any parsing. -/
  | blank
  /-- non-blank but not valid JSON: `json.loads` raises, line is skipped. -/
  | malformed
  /-- parses as the JSON value `j`. -/
  | json (j : Json)
deriving Repr

/-- Environment for the streaming request: response status, raw body text
(for the error branch), and the body's lines. -/
inductive StreamOutcome where
  | success (status : ℕ) (text : String) (lines : List StreamLine)
  | netFail (f : ReqFailure)
deriving Repr

/-- Only a JSON string equal to `s` compares `==` to the Python string `s`. -/
def jsonEqStr (s : String) : Json → Bool
  | .str t => s = t
  | _ => false

/-- Python `needle in hay` on strings: contiguous substring search. -/
def containsSub (needle : List Char) : List Char → Bool
  | [] => needle.isEmpty
  | c :: rest => needle.isPrefixOf (c :: rest) || containsSub needle rest

/-- What processing one line does: skip, yield `chunk_data["response"]`, or
raise a `TypeError` that escapes the generator (`in` on a non-container, or
`[...]` indexing after a substring/membership hit). -/
inductive StepRes where
  | skip
  | yield (v : Json)
  | raise (msg : String)
deriving Repr

def lineStep : StreamLine → StepRes
  | .blank => .skip
  | .malformed => .skip -- except json.JSONDecodeError: continue
  | .json j =>
    match j with
    | .obj fs =>
      match Json.getKey? fs "response" with
      | some v => .yield v
      | none => .skip
    | .arr xs =>
      -- `"response" in [...]` is membership; indexing a list with a string raises
      if xs.any (jsonEqStr "response") then .raise "TypeError: list indices must be integers"
      else .skip
    | .str s =>
      -- `"response" in "..."` is substring search; indexing a str with a str raises
      if containsSub "response".data s.data then .raise "TypeError: string indices must be integers"
      else .skip
    | _ => .raise "TypeError: argument is not iterable"

/-- Consuming the stream: yields accumulate until the lines end or a raise
escapes (carrying the values yielded before it). -/
def runStream : List StreamLine → List Json × Option String
  | [] => ([], none)
  | l :: rest =>
    match lineStep l with
    | .skip => runStream rest
    | .yield v => (v :: (runStream rest).1, (runStream rest).2)
    | .raise m => ([], some m)

structure ChatStreamResult where
  /-- the `response` fragments yielded, in order. -/
  yielded : List Json
  /-- a typed error raised (`ModelNotFoundError` / `OllamaConnectionError`). -/
  error : Option OllamaError := none
  /-- an exception that escaped uncaught. -/
  raisedMsg : Option String := none
  /-- the caller's request object after the call (`request.stream = True`
  mutates it in place). -/
  requestAfter : ChatRequest
  /-- whether the HTTP request was issued. -/
  networkCalled : Bool
deriving Repr

/-- Embedding of `OllamaClient.chat_stream`.  Note: unlike `chat`, it never consults
`settings.is_model_allowed` — the `_settings` parameter is unused. -/
def chat_stream (_settings : Settings) (req : ChatRequest)
    (outcome : StreamOutcome) : ChatStreamResult :=
  let req' := { req with stream := true } -- request.stream = True
  match outcome with
  | .netFail (.connectError m) | .netFail (.timeoutError m) | .netFail (.requestError m) =>
    { yielded := [], error := some (.connectionError ("Network error: " ++ m)),
      requestAfter := req', networkCalled := true }
  | .netFail (.unexpectedError m) =>
    { yielded := [], raisedMsg := some m, requestAfter := req', networkCalled := true }
  | .success status text lines =>
    if status = 404 then
      { yielded := [], error := some (.modelNotFound ("Model '" ++ req.model ++ "' not found")),
        requestAfter := req', networkCalled := true }
    else if status ≠ 200 then
      { yielded := [], error := some (.connectionError
          ("Stream request failed: HTTP " ++ toString status ++ " - " ++ text)),
        requestAfter := req', networkCalled := true }
    else
      { yielded := (runStream lines).1, raisedMsg := (runStream lines).2,
        requestAfter := req', networkCalled := true }

/-! ## `pull_model` (infrastructure/ollama_client.py lines 385-459) -/

inductive DownloadStatus where
  | pending
  | downloading
  | completed
  | failed
  | cancelled
deriving Repr, DecidableEq

structure DownloadProgress where
  job_id : String
  model_name : String
  status : DownloadStatus
  progress_percent : ℚ := 0
  bytes_downloaded : ℤ := 0
  total_bytes : Option ℤ := none
  error_message : Option String := none
deriving Repr

/-- Constructing a `DownloadProgress` runs the `validate_progress` validator,
which clamps the percentage into [0, 100]. -/
def mkDownloadProgress (job_id model_name : String) (status : DownloadStatus)
    (progress : ℚ) (err : Option String) : DownloadProgress :=
  { job_id, model_name, status, progress_percent := max 0 (min 100 progress),
    error_message := err }

/-- Python `model_name.replace(':', '-')`. -/
def sanitizeName (s : String) : String := ⟨replaceChar ':' ['-'] s.data⟩

/-- Embedding of `OllamaClient.pull_model`.  `now` is `int(time.time())` at the start of
the `try` block; `now2` its value inside an exception handler (the handlers
recompute the job id).  The Bool records whether the HTTP request was
issued. -/
def pull_model (st : Settings) (name : String) (now now2 : ℕ)
    (outcome : ReqOutcome) : CallResult DownloadProgress × Bool :=
  if pyStrip name = "" then
    (.err (.validationError "Model name cannot be empty"), false)
  else if !st.is_model_allowed name then
    (.err (.validationError ("Model '" ++ name ++ "' is not allowed")), false)
  else
    let job_id := "pull-" ++ sanitizeName name ++ "-" ++ toString now
    let job_id2 := "pull-" ++ sanitizeName name ++ "-" ++ toString now2
    match outcome with
    | .netFail (.connectError m) | .netFail (.timeoutError m) | .netFail (.requestError m) =>
      (.ok (mkDownloadProgress job_id2 name .failed 0 (some ("Network error: " ++ m))), true)
    | .netFail (.unexpectedError m) =>
      (.ok (mkDownloadProgress job_id2 name .failed 0 (some ("Unexpected error: " ++ m))), true)
    | .success resp =>
      if resp.status = 404 then
        (.ok (mkDownloadProgress job_id name .failed 0
          (some ("Model '" ++ name ++ "' not found in Ollama Hub"))), true)
      else if resp.status ≠ 200 then
        (.ok (mkDownloadProgress job_id name .failed 0
          (some ("Pull failed: HTTP " ++ toString resp.status ++ " - " ++ resp.text))), true)
      else
        (.ok (mkDownloadProgress job_id name .completed 100 none), true)

/-! ## `delete_model` (infrastructure/ollama_client.py lines 461-497) -/

/-- Embedding of `OllamaClient.delete_model`. -/
def delete_model (name : String) (outcome : ReqOutcome) : CallResult Bool :=
  match outcome with
  | .netFail (.connectError m) | .netFail (.timeoutError m) | .netFail (.requestError m) =>
    .err (.connectionError ("Network error: " ++ m))
  | .netFail (.unexpectedError m) =>
    .err (.connectionError ("Unexpected error: " ++ m))
  | .success resp =>
    if resp.status = 404 then
      .err (.modelNotFound ("Model '" ++ name ++ "' not found"))
    else if resp.status = 200 then
      .ok true
    else
      .ok false

lemma hrLoop_cons_lt (sep : String) {q : ℚ} (h : q < 1024) (u : String) (us : List String) :
    hrLoop sep q (u :: us) = (fmt1 q ++ sep ++ u, q) := by
  simp [hrLoop, h]

lemma hrLoop_cons_ge (sep : String) {q : ℚ} (h : ¬ q < 1024) (u : String) (us : List String) :
    hrLoop sep q (u :: us) = hrLoop sep (q / 1024) us := by
  simp [hrLoop, h]

lemma divChain (q : ℚ) (k : ℕ) : q / 1024 ^ k / 1024 = q / 1024 ^ (k + 1) := by
  rw [div_div, ← pow_succ]

lemma divLtIff (q : ℚ) (k : ℕ) : q / 1024 ^ k < 1024 ↔ q < 1024 ^ (k + 1) := by
  rw [div_lt_iff₀ (by positivity), ← pow_succ']

/-- The rendering loop stops exactly at the first unit whose scaled value is
below 1024 (falling through to `PB` when none is), and leaves the loop
variable at the scaled value. -/
lemma hrLoop_eq (sep : String) (q : ℚ) :
    hrLoop sep q hrUnits =
      (fmt1 (q / 1024 ^ hrIdx q) ++ sep ++ unitAt (hrIdx q), q / 1024 ^ hrIdx q) := by
  by_cases h0 : q < 1024
  · have hidx : hrIdx q = 0 := by simp [hrIdx, h0]
    rw [hidx]
    show hrLoop sep q hrUnits = (fmt1 (q / 1024 ^ 0) ++ sep ++ "B", q / 1024 ^ 0)
    rw [show q / 1024 ^ 0 = q by norm_num]
    exact hrLoop_cons_lt sep h0 _ _
  · have s0 : hrLoop sep q hrUnits = hrLoop sep (q / 1024 ^ 1) ["KB", "MB", "GB", "TB"] := by
      rw [show q / 1024 ^ 1 = q / 1024 by norm_num]
      exact hrLoop_cons_ge sep h0 _ _
    by_cases h1 : q < 1024 ^ 2
    · have hidx : hrIdx q = 1 := by simp [hrIdx, h0, h1]
      rw [hidx, s0]
      exact hrLoop_cons_lt sep ((divLtIff q 1).mpr h1) _ _
    · have s1 : hrLoop sep q hrUnits = hrLoop sep (q / 1024 ^ 2) ["MB", "GB", "TB"] := by
        rw [s0, hrLoop_cons_ge sep (fun h => h1 ((divLtIff q 1).mp h)) _ _, divChain]
      by_cases h2 : q < 1024 ^ 3
      · have hidx : hrIdx q = 2 := by simp [hrIdx, h0, h1, h2]
        rw [hidx, s1]
        exact hrLoop_cons_lt sep ((divLtIff q 2).mpr h2) _ _
      · have s2 : hrLoop sep q hrUnits = hrLoop sep (q / 1024 ^ 3) ["GB", "TB"] := by
          rw [s1, hrLoop_cons_ge sep (fun h => h2 ((divLtIff q 2).mp h)) _ _, divChain]
        by_cases h3 : q < 1024 ^ 4
        · have hidx : hrIdx q = 3 := by simp [hrIdx, h0, h1, h2, h3]
          rw [hidx, s2]
          exact hrLoop_cons_lt sep ((divLtIff q 3).mpr h3) _ _
        · have s3 : hrLoop sep q hrUnits = hrLoop sep (q / 1024 ^ 4) ["TB"] := by
            rw [s2, hrLoop_cons_ge sep (fun h => h3 ((divLtIff q 3).mp h)) _ _, divChain]
          by_cases h4 : q < 1024 ^ 5
          · have hidx : hrIdx q = 4 := by simp [hrIdx, h0, h1, h2, h3, h4]
            rw [hidx, s3]
            exact hrLoop_cons_lt sep ((divLtIff q 4).mpr h4) _ _
          · have hidx : hrIdx q = 5 := by simp [hrIdx, h0, h1, h2, h3, h4]
            rw [hidx, s3, hrLoop_cons_ge sep (fun h => h4 ((divLtIff q 4).mp h)) _ _, divChain]
            rfl

lemma human_readable_eval {n : ℚ} {k : ℕ} (hidx : hrIdx n = k) :
    (human_readable n).1 = fmt1 (n / 1024 ^ k) ++ unitAt k ∧
    (human_readable n).2 = n / 1024 ^ k := by
  unfold human_readable
  rw [hrLoop_eq, hidx, String.append_empty]
  exact ⟨rfl, rfl⟩

lemma size_human_eval {n : ℤ} {k : ℕ} (hidx : hrIdx (n : ℚ) = k) :
    size_human n = fmt1 ((n : ℚ) / 1024 ^ k) ++ " " ++ unitAt k := by
  unfold size_human
  rw [hrLoop_eq, hidx]

lemma roundHalfEven_eq_down {q : ℚ} {f : ℤ} (h1 : (f : ℚ) ≤ q) (h2 : q < f + 1/2) :
    roundHalfEven q = f := by
  have hf : ⌊q⌋ = f := by
    rw [Int.floor_eq_iff]
    exact ⟨h1, by linarith⟩
  unfold roundHalfEven
  rw [hf, if_pos (by linarith)]

lemma fmt1_eval {q : ℚ} {n : ℤ} (hn : 0 ≤ n) (h : roundHalfEven (q * 10) = n) :
    fmt1 q = toString (n.toNat / 10) ++ "." ++ toString (n.toNat % 10) := by
  unfold fmt1
  rw [h, if_neg (by omega)]

lemma fmt1_concrete (q : ℚ) (f : ℤ) (h1 : (f : ℚ) ≤ q * 10) (h2 : q * 10 < f + 1/2)
    (hf : 0 ≤ f) :
    fmt1 q = toString (f.toNat / 10) ++ "." ++ toString (f.toNat % 10) :=
  fmt1_eval hf (roundHalfEven_eq_down h1 h2)

lemma str_append_ne_empty {p : String} (s : String) (hp : p.data ≠ []) : p ++ s ≠ "" := by
  intro h
  have h2 := congrArg String.data h
  rw [String.data_append] at h2
  simp at h2
  exact hp h2.1

/-! ### Concrete renderer evaluations (shared by the C5 theorems) -/

lemma hr512 : (human_readable 512).1 = "512.0B" := by
  have hidx : hrIdx (512 : ℚ) = 0 := by unfold hrIdx; norm_num
  rw [(human_readable_eval hidx).1,
    fmt1_concrete _ 5120 (by norm_num) (by norm_num) (by norm_num)]
  decide

lemma hr1024 : (human_readable 1024).1 = "1.0KB" := by
  have hidx : hrIdx (1024 : ℚ) = 1 := by unfold hrIdx; norm_num
  rw [(human_readable_eval hidx).1,
    fmt1_concrete _ 10 (by norm_num) (by norm_num) (by norm_num)]
  decide

lemma hr2048000000 : (human_readable 2048000000).1 = "1.9GB" := by
  have hidx : hrIdx (2048000000 : ℚ) = 3 := by unfold hrIdx; norm_num
  rw [(human_readable_eval hidx).1,
    fmt1_concrete _ 19 (by norm_num) (by norm_num) (by norm_num)]
  decide

lemma hr1073741824 : (human_readable 1073741824).1 = "1.0GB" := by
  have hidx : hrIdx (1073741824 : ℚ) = 3 := by unfold hrIdx; norm_num
  rw [(human_readable_eval hidx).1,
    fmt1_concrete _ 10 (by norm_num) (by norm_num) (by norm_num)]
  decide

lemma sh512 : size_human 512 = "512.0 B" := by
  have hidx : hrIdx (((512 : ℤ)) : ℚ) = 0 := by unfold hrIdx; norm_num
  rw [size_human_eval hidx,
    fmt1_concrete _ 5120 (by norm_num) (by norm_num) (by norm_num)]
  decide

lemma sh1024 : size_human 1024 = "1.0 KB" := by
  have hidx : hrIdx (((1024 : ℤ)) : ℚ) = 1 := by unfold hrIdx; norm_num
  rw [size_human_eval hidx,
    fmt1_concrete _ 10 (by norm_num) (by norm_num) (by norm_num)]
  decide

lemma sh2048000000 : size_human 2048000000 = "1.9 GB" := by
  have hidx : hrIdx (((2048000000 : ℤ)) : ℚ) = 3 := by unfold hrIdx; norm_num
  rw [size_human_eval hidx,
    fmt1_concrete _ 19 (by norm_num) (by norm_num) (by norm_num)]
  decide

/-! ## Claim C5 -/

/-- C5 (corrected): for byte sizes below `2^53` (the range where the
renderer's float arithmetic is exact), both renderers scale to the smallest
unit among B/KB/MB/GB/TB whose scaled value is below 1024 (PB when none is)
and format with exactly one decimal digit; but `ModelSize.human_readable`
puts NO space before the unit ("512.0B", "1.0KB", "1.9GB") — only the legacy
`client.py` renderer produces the spec's spaced examples ("512.0 B"). -/
theorem c5_size_renderer :
    (∀ n : ℕ, n < 2 ^ 53 → ∀ k : ℕ, k ≤ 5 →
      n < 1024 ^ (k + 1) → (∀ j : ℕ, j < k → 1024 ^ (j + 1) ≤ n) →
      (human_readable (n : ℚ)).1 = fmt1 ((n : ℚ) / 1024 ^ k) ++ unitAt k ∧
      size_human (n : ℤ) = fmt1 ((n : ℚ) / 1024 ^ k) ++ " " ++ unitAt k) ∧
    (human_readable 512).1 = "512.0B" ∧
    (human_readable 1024).1 = "1.0KB" ∧
    (human_readable 2048000000).1 = "1.9GB" ∧
    (human_readable 1073741824).1 = "1.0GB" ∧
    size_human 512 = "512.0 B" ∧
    size_human 1024 = "1.0 KB" ∧
    size_human 2048000000 = "1.9 GB" := by
  refine ⟨?_, hr512, hr1024, hr2048000000, hr1073741824, sh512, sh1024, sh2048000000⟩
  intro n _bound k hk hlt hge
  have c0 : ((n : ℚ) < 1024 ↔ n < 1024) := by exact_mod_cast Iff.rfl
  have cp : ∀ m : ℕ, ((n : ℚ) < 1024 ^ m ↔ n < 1024 ^ m) := fun m => by
    exact_mod_cast Iff.rfl
  have hidx : hrIdx (n : ℚ) = k := by
    interval_cases k
    · simp only [hrIdx, c0, cp]
      norm_num at hlt ⊢
      split_ifs <;> omega
    · have g0 := hge 0 (by omega)
      simp only [hrIdx, c0, cp]
      norm_num at hlt g0 ⊢
      split_ifs <;> omega
    · have g0 := hge 0 (by omega)
      have g1 := hge 1 (by omega)
      simp only [hrIdx, c0, cp]
      norm_num at hlt g0 g1 ⊢
      split_ifs <;> omega
    · have g0 := hge 0 (by omega)
      have g1 := hge 1 (by omega)
      have g2 := hge 2 (by omega)
      simp only [hrIdx, c0, cp]
      norm_num at hlt g0 g1 g2 ⊢
      split_ifs <;> omega
    · have g0 := hge 0 (by omega)
      have g1 := hge 1 (by omega)
      have g2 := hge 2 (by omega)
      have g3 := hge 3 (by omega)
      simp only [hrIdx, c0, cp]
      norm_num at hlt g0 g1 g2 g3 ⊢
      split_ifs <;> omega
    · have g0 := hge 0 (by omega)
      have g1 := hge 1 (by omega)
      have g2 := hge 2 (by omega)
      have g3 := hge 3 (by omega)
      have g4 := hge 4 (by omega)
      simp only [hrIdx, c0, cp]
      norm_num at hlt g0 g1 g2 g3 g4 ⊢
      split_ifs <;> omega
  have hidx2 : hrIdx (((n : ℤ)) : ℚ) = k := by
    rw [show ((((n : ℕ) : ℤ)) : ℚ) = (n : ℚ) by push_cast; ring]
    exact hidx
  have h2 := size_human_eval hidx2
  push_cast at h2
  exact ⟨(human_readable_eval hidx).1, h2⟩

/-- C5 witness: the general statement applied at 2048000000 bytes (GB). -/
theorem c5_size_renderer_witness :
    (human_readable ((2048000000 : ℕ) : ℚ)).1 =
      fmt1 (((2048000000 : ℕ) : ℚ) / 1024 ^ 3) ++ unitAt 3 ∧
    size_human ((2048000000 : ℕ) : ℤ) =
      fmt1 (((2048000000 : ℕ) : ℚ) / 1024 ^ 3) ++ " " ++ unitAt 3 :=
  c5_size_renderer.1 2048000000 (by decide) 3 (by decide) (by decide) (by decide)

/-- C5 counterexample: the core renderer emits "512.0B", not the claimed
"512.0 B". -/
theorem c5_counterexample :
    (human_readable 512).1 = "512.0B" ∧ (human_readable 512).1 ≠ "512.0 B" := by
  refine ⟨hr512, ?_⟩
  rw [hr512]
  decide

/-! ## Claim C9 -/

/-- C9 (corrected): entities are NOT all immutable. Exactly two operations
mutate state in place, and this theorem characterizes both:
`ModelSize.human_readable` leaves `self.bytes` divided down to the scaled
value `bytes / 1024 ^ hrIdx bytes`, and `chat_stream` sets its request
argument's `stream` flag to `True` on every path. -/
theorem c9_mutation_characterization :
    (∀ q : ℚ, (human_readable q).2 = q / 1024 ^ hrIdx q) ∧
    (∀ (st : Settings) (req : ChatRequest) (outcome : StreamOutcome),
      (chat_stream st req outcome).requestAfter = { req with stream := true }) := by
  constructor
  · intro q
    exact (human_readable_eval rfl).2
  · intro st req outcome
    cases outcome with
    | netFail f => cases f <;> rfl
    | success status text lines =>
      simp only [chat_stream]
      split_ifs <;> rfl

/-- C9 counterexample: rendering 2048000000 bytes changes the entity's
`bytes` field (so a second read would disagree), and `chat_stream` flips a
`stream=False` request to `stream=True`. -/
theorem c9_counterexample :
    (human_readable 2048000000).2 ≠ 2048000000 ∧
    (chat_stream ⟨none, none⟩ { model := "m", message := "hi" }
        (.success 200 "" [])).requestAfter.stream = true ∧
    ({ model := "m", message := "hi" } : ChatRequest).stream = false := by
  refine ⟨?_, rfl, rfl⟩
  have hidx : hrIdx (2048000000 : ℚ) = 3 := by unfold hrIdx; norm_num
  rw [(human_readable_eval hidx).2]
  norm_num

/-! ## Claim C1 -/

lemma str_append3_ne_empty (a b c : String) (ha : a.data ≠ []) : a ++ b ++ c ≠ "" := by
  apply str_append_ne_empty
  rw [String.data_append]
  intro h
  exact ha (List.append_eq_nil.mp h).1

/-- C1 (confirmed): `health_check` returns a `HealthStatus` on every outcome
(daemon unreachable, timeout, non-200 status, malformed JSON, any other
exception) — it never raises; whenever `healthy` is false the error string is
present and non-empty, and the `host` field always equals the configured base
URL. -/
theorem c1_health_check (baseUrl : String) (timeoutCfg rtime : ℚ) (outcome : ReqOutcome) :
    (health_check baseUrl timeoutCfg rtime outcome).host = baseUrl ∧
    ((health_check baseUrl timeoutCfg rtime outcome).healthy = false →
      ∃ e, (health_check baseUrl timeoutCfg rtime outcome).error = some e ∧ e ≠ "") := by
  cases outcome with
  | netFail f =>
    cases f with
    | connectError m =>
      exact ⟨rfl, fun _ => ⟨_, rfl, str_append_ne_empty _ (by decide)⟩⟩
    | timeoutError m =>
      exact ⟨rfl, fun _ => ⟨_, rfl, str_append3_ne_empty _ _ _ (by decide)⟩⟩
    | requestError m =>
      exact ⟨rfl, fun _ => ⟨_, rfl, str_append_ne_empty _ (by decide)⟩⟩
    | unexpectedError m =>
      exact ⟨rfl, fun _ => ⟨_, rfl, str_append_ne_empty _ (by decide)⟩⟩
  | success resp =>
    by_cases h200 : resp.status = 200
    · cases hjb : resp.jsonBody with
      | none =>
        constructor
        · simp [health_check, h200, hjb]
        · intro _
          refine ⟨"Invalid JSON response from server", ?_, by decide⟩
          simp [health_check, h200, hjb]
      | some data =>
        cases hmc : modelsCount data with
        | some k =>
          constructor
          · simp [health_check, h200, hjb, hmc]
          · intro hfalse
            exfalso
            simp [health_check, h200, hjb, hmc] at hfalse
        | none =>
          constructor
          · simp [health_check, h200, hjb, hmc]
          · intro _
            refine ⟨"Unexpected error: " ++ lenErrMsg, ?_, str_append_ne_empty _ (by decide)⟩
            simp [health_check, h200, hjb, hmc]
    · constructor
      · simp [health_check, h200]
      · intro _
        refine ⟨"Server returned status " ++ toString resp.status, ?_,
          str_append_ne_empty _ (by decide)⟩
        simp [health_check, h200]

/-- C1 witness: connection refused — unhealthy, non-empty error, host
echoed. -/
theorem c1_witness :
    (health_check "http://localhost:11434" 30 5
      (.netFail (.connectError "refused"))).host = "http://localhost:11434" ∧
    ∃ e, (health_check "http://localhost:11434" 30 5
      (.netFail (.connectError "refused"))).error = some e ∧ e ≠ "" := by
  have h := c1_health_check "http://localhost:11434" 30 5 (.netFail (.connectError "refused"))
  exact ⟨h.1, h.2 rfl⟩

/-! ## Claim C2 -/

/-- C2 (confirmed): `chat` rejects a policy-disallowed model with a
`ValidationError` before issuing any HTTP request; for allowed models, a
daemon 404 becomes `ModelNotFoundError` (never a `ConnectionError`), and any
other non-200 status becomes a `ConnectionError` whose message ends with the
response body. -/
theorem c2_chat_policy_and_status (st : Settings) (req : ChatRequest) (outcome : ReqOutcome) :
    (st.is_model_allowed req.model = false →
      chat st req outcome =
        (.err (.validationError ("Model '" ++ req.model ++ "' is not allowed")), false)) ∧
    (st.is_model_allowed req.model = true →
      ∀ resp, outcome = .success resp →
        (resp.status = 404 →
          chat st req outcome =
            (.err (.modelNotFound ("Model '" ++ req.model ++ "' not found")), true)) ∧
        (resp.status ≠ 404 → resp.status ≠ 200 →
          chat st req outcome =
            (.err (.connectionError
              ("Chat request failed: HTTP " ++ toString resp.status ++ " - " ++ resp.text)),
             true))) := by
  constructor
  · intro hna
    simp [chat, hna]
  · intro ha resp hout
    subst hout
    constructor
    · intro h404
      simp [chat, ha, h404]
    · intro h404 h200
      simp [chat, ha, h404, h200]

/-- C2 witness: a blocked model is rejected without a network call; an
allowed model hitting a 404 yields `ModelNotFoundError`. -/
theorem c2_witness :
    chat ⟨none, some ["b"]⟩ { model := "b", message := "hi" } (.success ⟨200, none, ""⟩) =
      (.err (.validationError "Model 'b' is not allowed"), false) ∧
    chat ⟨none, none⟩ { model := "ghost-model", message := "hi" } (.success ⟨404, none, ""⟩) =
      (.err (.modelNotFound "Model 'ghost-model' not found"), true) := by
  constructor
  · exact (c2_chat_policy_and_status ⟨none, some ["b"]⟩
      { model := "b", message := "hi" } _).1 (by decide)
  · exact ((c2_chat_policy_and_status ⟨none, none⟩
      { model := "ghost-model", message := "hi" } _).2 (by decide) _ rfl).1 rfl

/-! ## Claim C7 -/

/-- C7 (confirmed): `delete_model` maps every outcome totally: 200 ↦ true,
404 ↦ `ModelNotFoundError`, any other status ↦ false (not a failure),
network-level failure ↦ `ConnectionError`; no path escapes unhandled. -/
theorem c7_delete_model (name : String) (outcome : ReqOutcome) :
    (∀ resp, outcome = .success resp →
      (resp.status = 200 → delete_model name outcome = .ok true) ∧
      (resp.status = 404 →
        delete_model name outcome = .err (.modelNotFound ("Model '" ++ name ++ "' not found"))) ∧
      (resp.status ≠ 200 → resp.status ≠ 404 → delete_model name outcome = .ok false)) ∧
    (∀ m, outcome = .netFail (.connectError m) ∨ outcome = .netFail (.timeoutError m) ∨
        outcome = .netFail (.requestError m) →
      delete_model name outcome = .err (.connectionError ("Network error: " ++ m))) ∧
    (∀ m, outcome = .netFail (.unexpectedError m) →
      delete_model name outcome = .err (.connectionError ("Unexpected error: " ++ m))) ∧
    (∀ msg, delete_model name outcome ≠ .raised msg) := by
  refine ⟨?_, ?_, ?_, ?_⟩
  · intro resp hout
    subst hout
    refine ⟨?_, ?_, ?_⟩
    · intro h200
      simp [delete_model, h200]
    · intro h404
      simp [delete_model, h404]
    · intro h200 h404
      simp [delete_model, h200, h404]
  · rintro m (h | h | h) <;> subst h <;> rfl
  · rintro m h
    subst h
    rfl
  · intro msg
    cases outcome with
    | success resp =>
      simp only [delete_model]
      split_ifs <;> simp
    | netFail f =>
      cases f <;> simp [delete_model]

/-- C7 witness: a 500 response yields `false` without failing; a 404 yields
`ModelNotFoundError`. -/
theorem c7_witness :
    delete_model "m" (.success ⟨500, none, "oops"⟩) = .ok false ∧
    delete_model "m" (.success ⟨404, none, ""⟩) = .err (.modelNotFound "Model 'm' not found") := by
  constructor
  · exact ((c7_delete_model "m" _).1 _ rfl).2.2 (by decide) (by decide)
  · exact ((c7_delete_model "m" _).1 _ rfl).2.1 rfl

/-! ## Claim C10 -/

/-- The function `is_model_allowed`, restated over the option-valued sets: denial is exact
membership in the blocked list; a present-but-empty allowed set behaves like
an absent one (Python truthiness). -/
lemma is_model_allowed_eq (st : Settings) (name : String) :
    st.is_model_allowed name =
      (if (st.blocked_models.getD []).contains name then false
       else if (st.allowed_models.getD []).isEmpty then true
       else (st.allowed_models.getD []).contains name) := by
  obtain ⟨am, bm⟩ := st
  unfold Settings.is_model_allowed
  cases bm with
  | none =>
    cases am with
    | none => simp [setTruthy]
    | some al => cases al <;> simp [setTruthy]
  | some bl =>
    cases bl with
    | nil =>
      cases am with
      | none => simp [setTruthy]
      | some al => cases al <;> simp [setTruthy]
    | cons b bt =>
      cases am with
      | none => simp [setTruthy]
      | some al => cases al <;> simp [setTruthy]

/-- C10 (corrected): membership in the blocked set denies (taking precedence
over the allowed set); a *non-empty* configured allowed set denies every name
outside it; with no (or an empty) configured set every name is allowed; all
by exact string membership.  The empty-allowed-set case — reachable, e.g.
`parse_model_lists ","` yields a present empty set — allows everything,
contrary to the claim's "any name not in a configured allowed set is
denied". -/
theorem c10_policy (st : Settings) (name : String) :
    ((st.blocked_models.getD []).contains name = true →
      st.is_model_allowed name = false) ∧
    (∀ l, st.allowed_models = some l → l.isEmpty = false →
      (st.blocked_models.getD []).contains name = false →
      st.is_model_allowed name = l.contains name) ∧
    ((st.blocked_models.getD []).contains name = false →
      (st.allowed_models = none ∨ st.allowed_models = some []) →
      st.is_model_allowed name = true) ∧
    Settings.parse_model_lists (some ",") = some [] := by
  refine ⟨?_, ?_, ?_, rfl⟩
  · intro hb
    rw [is_model_allowed_eq, if_pos hb]
  · intro l hl hne hb
    rw [is_model_allowed_eq, if_neg (by simp only [hb]; exact Bool.false_ne_true), hl]
    simp [hne]
  · intro hb hal
    rcases hal with h | h <;>
      rw [is_model_allowed_eq, if_neg (by simp only [hb]; exact Bool.false_ne_true), h] <;> simp

/-- C10 witness: a blocked name is denied even when also allowed; with no
lists configured everything is allowed. -/
theorem c10_witness :
    Settings.is_model_allowed ⟨some ["a"], some ["a"]⟩ "a" = false ∧
    Settings.is_model_allowed ⟨none, none⟩ "anything" = true := by
  constructor
  · exact (c10_policy ⟨some ["a"], some ["a"]⟩ "a").1 (by decide)
  · exact (c10_policy ⟨none, none⟩ "anything").2.2.1 (by decide) (Or.inl rfl)

/-- C10 counterexample: an allowed set that is configured but empty (as
`ALLOWED_MODELS=","` produces) allows every name, while the claim as stated
("when an allowed set is configured, any name not in it is denied") would
deny them all. -/
theorem c10_counterexample :
    Settings.is_model_allowed ⟨some [], none⟩ "x" = true ∧
    specAllowed ⟨some [], none⟩ "x" = false ∧
    Settings.parse_model_lists (some ",") = some [] := by
  exact ⟨by decide, by decide, rfl⟩

/-! ## Claim C8 -/

/-- What `re.match(r'^[a-zA-Z0-9._:-]+$', v)` accepts: all characters in the
class (non-empty), or all characters in the class followed by exactly one
final newline (the `$` anchor also matches before a trailing `'\n'`). -/
lemma matchesNamePattern_iff (v : String) :
    matchesNamePattern v = true ↔
      (v.data ≠ [] ∧ v.data.all nameChar = true) ∨
      (∃ pre, v.data = pre ++ ['\n'] ∧ pre ≠ [] ∧ pre.all nameChar = true) := by
  unfold matchesNamePattern
  simp only [Bool.or_eq_true, Bool.and_eq_true, beq_iff_eq]
  constructor
  · rintro (⟨h1, h2⟩ | ⟨⟨hl, h1⟩, h2⟩)
    · exact Or.inl ⟨by simpa using h1, h2⟩
    · refine Or.inr ⟨v.data.dropLast, ?_, by simpa using h1, h2⟩
      exact (List.dropLast_append_getLast? '\n' hl).symm
  · rintro (⟨h1, h2⟩ | ⟨pre, hpre, h1, h2⟩)
    · exact Or.inl ⟨by simpa using h1, h2⟩
    · refine Or.inr ⟨⟨?_, ?_⟩, ?_⟩
      · rw [hpre]
        exact List.getLast?_concat pre
      · rw [hpre, List.dropLast_concat]
        simpa using h1
      · rw [hpre, List.dropLast_concat]
        exact h2

/-- C8 (corrected): construction succeeds iff the *raw* name is non-empty
with every character in `[A-Za-z0-9._:-]` — or is such a name followed by
exactly one trailing newline, which `re.match`'s `$` anchor also accepts; the
regex runs before any trimming, so a name that matches only after trimming
(e.g. with a leading space) is rejected.  The stored name is the stripped
input. -/
theorem c8_name_validation (v : String) :
    ((∃ t, validate_model_name v = .ok t) ↔
      ((v.data ≠ [] ∧ v.data.all nameChar = true) ∨
       (∃ pre, v.data = pre ++ ['\n'] ∧ pre ≠ [] ∧ pre.all nameChar = true))) ∧
    (∀ t, validate_model_name v = .ok t → t = pyStrip v) := by
  constructor
  · rw [← matchesNamePattern_iff]
    constructor
    · rintro ⟨t, ht⟩
      by_cases he : v = ""
      · simp [validate_model_name, he] at ht
      · by_cases hm : matchesNamePattern v
        · exact hm
        · simp [validate_model_name, he, hm] at ht
    · intro hm
      have he : v ≠ "" := by
        intro h
        subst h
        exact absurd hm (by decide)
      exact ⟨pyStrip v, by simp [validate_model_name, he, hm]⟩
  · intro t ht
    by_cases he : v = ""
    · simp [validate_model_name, he] at ht
    · by_cases hm : matchesNamePattern v
      · simp [validate_model_name, he, hm] at ht
        exact ht.symm
      · simp [validate_model_name, he, hm] at ht

/-- C8 witness: a plain in-class name is accepted. -/
theorem c8_witness : ∃ t, validate_model_name "llama3.2:latest" = .ok t :=
  (c8_name_validation "llama3.2:latest").1.mpr (Or.inl ⟨by decide, by decide⟩)

/-- C8 counterexample: " abc" matches the pattern after trimming yet is
rejected (regex runs pre-trim), and "abc\n" contains a character outside the
class yet is accepted (the `$`-before-trailing-newline quirk). -/
theorem c8_counterexample :
    claimNameValid " abc" = true ∧
    validate_model_name " abc" = .error "Model name contains invalid characters" ∧
    ('\n' ∈ "abc\n".data ∧ nameChar '\n' = false) ∧
    validate_model_name "abc\n" = .ok "abc" :=
  ⟨by decide, rfl, ⟨by decide, by decide⟩, rfl⟩

/-! ## Claim C6 -/

lemma str_data_ne_nil_left {a : String} (b : String) (ha : a.data ≠ []) :
    (a ++ b).data ≠ [] := by
  rw [String.data_append]
  intro h
  exact ha (List.append_eq_nil.mp h).1

/-- C6 (confirmed): `pull_model` raises a `ValidationError` before contacting
the daemon for empty/whitespace or policy-disallowed names; otherwise it
always returns a well-formed `DownloadProgress` with job id
`pull-<sanitized-name>-<unix-timestamp>`: Completed at 100% on HTTP 200, and
Failed with a non-empty error on any HTTP error, network error, or unexpected
exception — never raising for those routine failures. -/
theorem c6_pull_model (st : Settings) (name : String) (now now2 : ℕ) (outcome : ReqOutcome) :
    (pyStrip name = "" →
      (pull_model st name now now2 outcome).1 =
          .err (.validationError "Model name cannot be empty") ∧
        (pull_model st name now now2 outcome).2 = false) ∧
    (pyStrip name ≠ "" → st.is_model_allowed name = false →
      (pull_model st name now now2 outcome).1 =
          .err (.validationError ("Model '" ++ name ++ "' is not allowed")) ∧
        (pull_model st name now now2 outcome).2 = false) ∧
    (pyStrip name ≠ "" → st.is_model_allowed name = true →
      (∀ resp, outcome = .success resp →
        (resp.status = 200 →
          ∃ dp, (pull_model st name now now2 outcome).1 = .ok dp ∧
            dp.job_id = "pull-" ++ sanitizeName name ++ "-" ++ toString now ∧
            dp.status = .completed ∧ dp.progress_percent = 100 ∧ dp.model_name = name) ∧
        (resp.status ≠ 200 →
          ∃ dp e, (pull_model st name now now2 outcome).1 = .ok dp ∧
            dp.job_id = "pull-" ++ sanitizeName name ++ "-" ++ toString now ∧
            dp.status = .failed ∧ dp.error_message = some e ∧ e ≠ "" ∧
            dp.model_name = name)) ∧
      (∀ f, outcome = .netFail f →
        ∃ dp e, (pull_model st name now now2 outcome).1 = .ok dp ∧
          dp.job_id = "pull-" ++ sanitizeName name ++ "-" ++ toString now2 ∧
          dp.status = .failed ∧ dp.error_message = some e ∧ e ≠ "" ∧
          dp.model_name = name)) := by
  refine ⟨?_, ?_, ?_⟩
  · intro hs
    constructor <;> simp [pull_model, hs]
  · intro hs hna
    constructor <;> simp [pull_model, hs, hna]
  · intro hs ha
    constructor
    · intro resp hout
      subst hout
      constructor
      · intro h200
        refine ⟨mkDownloadProgress ("pull-" ++ sanitizeName name ++ "-" ++ toString now)
          name .completed 100 none, ?_, rfl, rfl, ?_, rfl⟩
        · simp [pull_model, hs, ha, h200]
        · show max 0 (min 100 (100 : ℚ)) = 100
          norm_num
      · intro h200
        by_cases h404 : resp.status = 404
        · refine ⟨mkDownloadProgress ("pull-" ++ sanitizeName name ++ "-" ++ toString now)
            name .failed 0 (some ("Model '" ++ name ++ "' not found in Ollama Hub")),
            "Model '" ++ name ++ "' not found in Ollama Hub", ?_, rfl, rfl, rfl,
            str_append3_ne_empty _ _ _ (by decide), rfl⟩
          simp [pull_model, hs, ha, h404]
        · refine ⟨mkDownloadProgress ("pull-" ++ sanitizeName name ++ "-" ++ toString now)
            name .failed 0
            (some ("Pull failed: HTTP " ++ toString resp.status ++ " - " ++ resp.text)),
            "Pull failed: HTTP " ++ toString resp.status ++ " - " ++ resp.text,
            ?_, rfl, rfl, rfl,
            str_append_ne_empty _ (str_data_ne_nil_left _ (str_data_ne_nil_left _ (by decide))),
            rfl⟩
          simp [pull_model, hs, ha, h404, h200]
    · intro f hout
      subst hout
      cases f with
      | connectError m =>
        refine ⟨mkDownloadProgress ("pull-" ++ sanitizeName name ++ "-" ++ toString now2)
          name .failed 0 (some ("Network error: " ++ m)), "Network error: " ++ m,
          ?_, rfl, rfl, rfl, str_append_ne_empty _ (by decide), rfl⟩
        simp [pull_model, hs, ha]
      | timeoutError m =>
        refine ⟨mkDownloadProgress ("pull-" ++ sanitizeName name ++ "-" ++ toString now2)
          name .failed 0 (some ("Network error: " ++ m)), "Network error: " ++ m,
          ?_, rfl, rfl, rfl, str_append_ne_empty _ (by decide), rfl⟩
        simp [pull_model, hs, ha]
      | requestError m =>
        refine ⟨mkDownloadProgress ("pull-" ++ sanitizeName name ++ "-" ++ toString now2)
          name .failed 0 (some ("Network error: " ++ m)), "Network error: " ++ m,
          ?_, rfl, rfl, rfl, str_append_ne_empty _ (by decide), rfl⟩
        simp [pull_model, hs, ha]
      | unexpectedError m =>
        refine ⟨mkDownloadProgress ("pull-" ++ sanitizeName name ++ "-" ++ toString now2)
          name .failed 0 (some ("Unexpected error: " ++ m)), "Unexpected error: " ++ m,
          ?_, rfl, rfl, rfl, str_append_ne_empty _ (by decide), rfl⟩
        simp [pull_model, hs, ha]

/-- C6 witness: a routine successful pull with a sanitized job id. -/
theorem c6_witness :
    ∃ dp, (pull_model ⟨none, none⟩ "llama3.2:latest" 1700000000 1700000001
        (.success ⟨200, none, ""⟩)).1 = .ok dp ∧
      dp.job_id = "pull-" ++ sanitizeName "llama3.2:latest" ++ "-" ++ toString 1700000000 ∧
      dp.status = .completed ∧ dp.progress_percent = 100 ∧
      dp.model_name = "llama3.2:latest" :=
  (((c6_pull_model ⟨none, none⟩ "llama3.2:latest" 1700000000 1700000001
    (.success ⟨200, none, ""⟩)).2.2 (by decide) (by decide)).1 _ rfl).1 rfl

/-! ## Claim C3 -/

/-- Removing a malformed line from a stream never changes what is yielded:
the line is silently skipped and processing continues. -/
lemma runStream_malformed (pre post : List StreamLine) :
    runStream (pre ++ StreamLine.malformed :: post) = runStream (pre ++ post) := by
  induction pre with
  | nil => simp [runStream, lineStep]
  | cons l t ih =>
    simp only [List.cons_append, runStream]
    cases h : lineStep l <;> simp [h, ih]

/-- C3 (corrected): `chat_stream` maps 404 to `ModelNotFoundError` and other
non-200 statuses to `ConnectionError`, and silently skips malformed JSON
lines while later lines keep flowing — but, contrary to the claim, it
performs NO allow/deny validation: the request is always issued (even for a
policy-disallowed model) and no `ValidationError` is ever produced. -/
theorem c3_chat_stream (st : Settings) (req : ChatRequest) (outcome : StreamOutcome) :
    (chat_stream st req outcome).networkCalled = true ∧
    (∀ e, (chat_stream st req outcome).error ≠ some (.validationError e)) ∧
    (∀ status text lines, outcome = .success status text lines →
      (status = 404 →
        (chat_stream st req outcome).error =
          some (.modelNotFound ("Model '" ++ req.model ++ "' not found"))) ∧
      (status ≠ 404 → status ≠ 200 →
        (chat_stream st req outcome).error =
          some (.connectionError
            ("Stream request failed: HTTP " ++ toString status ++ " - " ++ text))) ∧
      (status = 200 →
        (chat_stream st req outcome).yielded = (runStream lines).1 ∧
        (chat_stream st req outcome).error = none)) ∧
    (∀ pre post, runStream (pre ++ StreamLine.malformed :: post) = runStream (pre ++ post)) := by
  refine ⟨?_, ?_, ?_, runStream_malformed⟩
  · cases outcome with
    | netFail f => cases f <;> rfl
    | success status text lines =>
      simp only [chat_stream]
      split_ifs <;> rfl
  · intro e
    cases outcome with
    | netFail f => cases f <;> simp [chat_stream]
    | success status text lines =>
      simp only [chat_stream]
      split_ifs <;> simp
  · intro status text lines hout
    subst hout
    refine ⟨?_, ?_, ?_⟩
    · intro h404
      simp [chat_stream, h404]
    · intro h404 h200
      simp [chat_stream, h404, h200]
    · intro h200
      constructor <;> simp [chat_stream, h200]

/-- C3 witness: a 200 stream with a good line and a malformed line yields
exactly the good fragment; dropping the malformed line changes nothing. -/
theorem c3_witness :
    (chat_stream ⟨none, some ["m"]⟩ { model := "m", message := "hi" }
        (.success 200 "" [.json (.obj [("response", .str "x")]), .malformed])).yielded =
      (runStream [.json (.obj [("response", .str "x")]), .malformed]).1 ∧
    runStream ([.json (.obj [("response", .str "x")])] ++ StreamLine.malformed :: []) =
      runStream ([.json (.obj [("response", .str "x")])] ++ []) := by
  have h := c3_chat_stream ⟨none, some ["m"]⟩ { model := "m", message := "hi" }
    (.success 200 "" [.json (.obj [("response", .str "x")]), .malformed])
  exact ⟨((h.2.2.1 200 "" _ rfl).2.2 rfl).1, h.2.2.2 [.json (.obj [("response", .str "x")])] []⟩

/-- C3 counterexample: a policy-blocked model is streamed anyway — the
network call is issued and no `ValidationError` is raised, contrary to the
claim's "same validation as chat". -/
theorem c3_counterexample :
    Settings.is_model_allowed ⟨none, some ["m"]⟩ "m" = false ∧
    (chat_stream ⟨none, some ["m"]⟩ { model := "m", message := "hi" }
        (.success 200 "" [.json (.obj [("response", .str "x")])])).error = none ∧
    (chat_stream ⟨none, some ["m"]⟩ { model := "m", message := "hi" }
        (.success 200 "" [.json (.obj [("response", .str "x")])])).networkCalled = true ∧
    (chat_stream ⟨none, some ["m"]⟩ { model := "m", message := "hi" }
        (.success 200 "" [.json (.obj [("response", .str "x")])])).yielded = [.str "x"] :=
  ⟨by decide, rfl, rfl, rfl⟩

/-! ## Claim C4 -/

lemma processEntries_no_fatal (entries : List Json) (acc : List ModelInfo)
    (h : ∀ e ∈ entries, entryFatal e = false) :
    processEntries entries acc = .ok (acc.reverse ++ entries.filterMap entryOk?) := by
  induction entries generalizing acc with
  | nil => simp [processEntries]
  | cons e rest ih =>
    have hrest : ∀ x ∈ rest, entryFatal x = false := fun x hx => h x (by simp [hx])
    cases he : entryM e with
    | ok m =>
      simp [processEntries, he, ih _ hrest, entryOk?, List.filterMap_cons]
    | error o =>
      cases o with
      | none =>
        simp [processEntries, he, ih _ hrest, entryOk?, List.filterMap_cons]
      | some msg =>
        have := h e (by simp)
        rw [entryFatal, he] at this
        simp at this

lemma processEntries_fatal (pre post : List Json) (bad : Json) (msg : String)
    (acc : List ModelInfo)
    (hpre : ∀ e ∈ pre, entryFatal e = false)
    (hbad : entryM bad = .error (some msg)) :
    processEntries (pre ++ bad :: post) acc =
      .error (.connectionError ("Unexpected error: " ++ msg)) := by
  induction pre generalizing acc with
  | nil => simp [processEntries, hbad]
  | cons e t ih =>
    have ht : ∀ x ∈ t, entryFatal x = false := fun x hx => hpre x (by simp [hx])
    cases he : entryM e with
    | ok m => simp [processEntries, he, ih _ ht]
    | error o =>
      cases o with
      | none => simp [processEntries, he, ih _ ht]
      | some m =>
        have := hpre e (by simp)
        rw [entryFatal, he] at this
        simp at this

/-- C4 (corrected): `list_models` fails with `ConnectionError` on any
network-level failure or non-200 status, with `ValidationError` on a
malformed JSON body, and skips malformed object entries so that exactly the
parseable entries are returned — but, contrary to the claim, a malformed
entry that raises `TypeError`/`AttributeError` (a non-object entry, a
non-string `modified_at`, a non-object `details`) is NOT skipped: it aborts
the whole call with a `ConnectionError`. -/
theorem c4_list_models (outcome : ReqOutcome) :
    (∀ f, outcome = .netFail f → ∃ m, list_models outcome = .error (.connectionError m)) ∧
    (∀ resp, outcome = .success resp → resp.status ≠ 200 →
      list_models outcome = .error (.connectionError
        ("Unexpected error: Failed to list models: HTTP " ++ toString resp.status))) ∧
    (∀ resp, outcome = .success resp → resp.status = 200 → resp.jsonBody = none →
      list_models outcome =
        .error (.validationError ("Invalid JSON response: " ++ jsonDecodeErrMsg))) ∧
    (∀ resp fs entries, outcome = .success resp → resp.status = 200 →
      resp.jsonBody = some (.obj fs) → Json.getKey? fs "models" = some (.arr entries) →
      (∀ e ∈ entries, entryFatal e = false) →
      list_models outcome = .ok (entries.filterMap entryOk?)) ∧
    (∀ resp fs pre post bad msg, outcome = .success resp → resp.status = 200 →
      resp.jsonBody = some (.obj fs) →
      Json.getKey? fs "models" = some (.arr (pre ++ bad :: post)) →
      (∀ e ∈ pre, entryFatal e = false) →
      entryM bad = .error (some msg) →
      list_models outcome = .error (.connectionError ("Unexpected error: " ++ msg))) := by
  refine ⟨?_, ?_, ?_, ?_, ?_⟩
  · intro f hout
    subst hout
    cases f with
    | connectError m => exact ⟨_, rfl⟩
    | timeoutError m => exact ⟨_, rfl⟩
    | requestError m => exact ⟨_, rfl⟩
    | unexpectedError m => exact ⟨_, rfl⟩
  · intro resp hout h200
    subst hout
    simp [list_models, h200]
  · intro resp hout h200 hjb
    subst hout
    simp [list_models, h200, hjb]
  · intro resp fs entries hout h200 hjb hkey hnf
    subst hout
    rw [show list_models (.success resp) = processEntries entries [] by
      simp [list_models, h200, hjb, hkey]]
    simpa using processEntries_no_fatal entries [] hnf
  · intro resp fs pre post bad msg hout h200 hjb hkey hpre hbad
    subst hout
    rw [show list_models (.success resp) = processEntries (pre ++ bad :: post) [] by
      simp [list_models, h200, hjb, hkey]]
    exact processEntries_fatal pre post bad msg [] hpre hbad

/-- C4 witness: the spec's scenario extended — two well-formed entries (one
with fractional-second timestamp) and one malformed (but still object-shaped)
entry — returns exactly the two well-formed descriptors. -/
theorem c4_witness :
    list_models (.success ⟨200, some (.obj [("models", .arr [
        Json.obj [("name", .str "llama3.2:latest"), ("size", .num 2048000000),
          ("modified_at", .str "2024-01-01T12:00:00Z")],
        Json.obj [("name", .str "phi3:mini"), ("size", .num 1),
          ("modified_at", .str "2024-01-01T12:00:00.500000Z")],
        Json.obj [("size", .num 1)]])]), ""⟩) =
      .ok [{ name := "llama3.2:latest", size := 2048000000, digest := none,
             modified := "2024-01-01T12:00:00+00:00", families := some [],
             format := none, parameter_size := none,
             quantization_level := none },
           { name := "phi3:mini", size := 1, digest := none,
             modified := "2024-01-01T12:00:00.500000+00:00", families := some [],
             format := none, parameter_size := none,
             quantization_level := none }] := by
  have h := (c4_list_models _).2.2.2.1 ⟨200, some (.obj [("models", .arr [
      Json.obj [("name", .str "llama3.2:latest"), ("size", .num 2048000000),
        ("modified_at", .str "2024-01-01T12:00:00Z")],
      Json.obj [("name", .str "phi3:mini"), ("size", .num 1),
        ("modified_at", .str "2024-01-01T12:00:00.500000Z")],
      Json.obj [("size", .num 1)]])]), ""⟩ _ _ rfl rfl rfl rfl (by decide)
  exact h

/-- C4 counterexample: a response with one well-formed entry and one
malformed non-object entry does not return the well-formed entry — the call
aborts with a `ConnectionError`, so malformed entries are not always
"skipped, not fatal".  Likewise an object entry whose `modified_at` is not a
string is fatal (and its invalid `digest` does not demote it to a skip,
because constructor arguments evaluate before pydantic validation). -/
theorem c4_counterexample :
    entryM (Json.obj [("name", .str "a"), ("size", .num 5),
        ("modified_at", .str "2024-01-01T12:00:00Z")]) =
      .ok { name := "a", size := 5, digest := none,
            modified := "2024-01-01T12:00:00+00:00", families := some [],
            format := none, parameter_size := none, quantization_level := none } ∧
    list_models (.success ⟨200, some (.obj [("models", .arr [
        Json.obj [("name", .str "a"), ("size", .num 5),
          ("modified_at", .str "2024-01-01T12:00:00Z")],
        Json.str "bad"])]), ""⟩) =
      .error (.connectionError
        "Unexpected error: TypeError: model entry is not subscriptable") ∧
    entryM (Json.obj [("name", .str "a"), ("size", .num 5), ("digest", .num 7),
        ("modified_at", .num 9)]) =
      .error (some "AttributeError: object has no attribute 'replace'") ∧
    list_models (.success ⟨200, some (.obj [("models", .arr [
        Json.obj [("name", .str "a"), ("size", .num 5), ("digest", .num 7),
          ("modified_at", .num 9)]])]), ""⟩) =
      .error (.connectionError
        "Unexpected error: AttributeError: object has no attribute 'replace'") :=
  ⟨rfl, rfl, rfl, rfl⟩

end OllamaMCP
